import Mathlib

/-!
Verification of the date-format-util library (src/index.ts).

The library normalizes heterogeneous date inputs (Date objects, numeric epoch
timestamps, strings) into an instant and renders it in a fixed set of output
formats.  We model the JavaScript runtime and the date-fns collaborator
shallowly:

* a JS `Date` object is its time value: an epoch-milliseconds integer, or
  "Invalid Date" (modelled as `Option Int`, `none` = invalid);
* JS numbers appearing as timestamps are restricted to integers (`Int`);
* the environment's local time zone is an explicit parameter `tz`, the
  offset in milliseconds added to a UTC epoch value to obtain local wall
  time (UTC corresponds to `tz = 0`);
* the current instant `new Date()` is an explicit parameter `now`;
* calendar arithmetic uses the standard civil-from-days / days-from-civil
  algorithms, which agree with ECMAScript's MakeDay/MakeDate.

Note that `/` and `%` on `Int` in this file are Euclidean division and
remainder, which for the positive literal divisors used throughout agree
with the floor-based arithmetic of the ECMAScript specification.
-/

set_option maxHeartbeats 1600000

namespace DateFormatUtil

/-- Gregorian leap-year test, months 1..12 convention. -/
def isLeapYear (y : Int) : Prop :=
  (y % 4 = 0 ∧ y % 100 ≠ 0) ∨ y % 400 = 0

instance (y : Int) : Decidable (isLeapYear y) := by
  unfold isLeapYear; infer_instance

/-- Number of days in month `m` of Gregorian year `y` (months 1..12). -/
def daysInMonth (y m : Int) : Int :=
  if m = 2 then (if isLeapYear y then 29 else 28)
  else if m = 4 ∨ m = 6 ∨ m = 9 ∨ m = 11 then 30
  else 31

/-- Days since 1970-01-01 of the civil date `(y, m, d)` (Hinnant's
days-from-civil algorithm, equivalent to ECMAScript MakeDay for in-range
months). -/
def daysFromCivil (y m d : Int) : Int :=
  let Y := y - (if m ≤ 2 then 1 else 0)
  let era := Y / 400
  let yoe := Y - era * 400
  let mp := (m + 9) % 12
  let doy := (153 * mp + 2) / 5 + d - 1
  let doe := yoe * 365 + yoe / 4 - yoe / 100 + doy
  era * 146097 + doe - 719468

/-- Civil date `(y, m, d)` of the day `z` days after 1970-01-01 (Hinnant's
civil-from-days algorithm, equivalent to ECMAScript YearFromTime /
MonthFromTime / DateFromTime). -/
def civilFromDays (z : Int) : Int × Int × Int :=
  let u := z + 719468
  let era := u / 146097
  let doe := u - era * 146097
  let yoe := (doe - doe / 1460 + doe / 36524 - doe / 146096) / 365
  let y := yoe + era * 400
  let doy := doe - (365 * yoe + yoe / 4 - yoe / 100)
  let mp := (5 * doy + 2) / 153
  let d := doy - (153 * mp + 2) / 5 + 1
  let m := mp + (if mp < 10 then 3 else -9)
  (y + (if m ≤ 2 then 1 else 0), m, d)

lemma daysFromCivil_char (y m d Y era yoe mp doy doe : Int)
    (h1 : Y = y - (if m ≤ 2 then 1 else 0)) (h2 : era = Y / 400)
    (h3 : yoe = Y - era * 400) (h4 : mp = (m + 9) % 12)
    (h5 : doy = (153 * mp + 2) / 5 + d - 1)
    (h6 : doe = yoe * 365 + yoe / 4 - yoe / 100 + doy) :
    daysFromCivil y m d = era * 146097 + doe - 719468 := by
  subst h6 h5 h4 h3 h2 h1; rfl

lemma civilFromDays_char (z era doe yoe doy mp : Int)
    (h1 : era = (z + 719468) / 146097)
    (h2 : doe = z + 719468 - era * 146097)
    (h3 : yoe = (doe - doe / 1460 + doe / 36524 - doe / 146096) / 365)
    (h4 : doy = doe - (365 * yoe + yoe / 4 - yoe / 100))
    (h5 : mp = (5 * doy + 2) / 153) :
    civilFromDays z =
      (yoe + era * 400 + (if (mp + (if mp < 10 then 3 else -9)) ≤ 2 then 1 else 0),
       mp + (if mp < 10 then 3 else -9),
       doy - (153 * mp + 2) / 5 + 1) := by
  subst h5 h4 h3 h2 h1; rfl

lemma monthRecover (mp d doy : Int) (hdoy : doy = (153 * mp + 2) / 5 + d - 1)
    (h1 : 0 ≤ mp) (h2 : mp ≤ 11) (h3 : 1 ≤ d)
    (h4 : d ≤ (153 * (mp + 1) + 2) / 5 - (153 * mp + 2) / 5) :
    (5 * doy + 2) / 153 = mp ∧ doy - (153 * mp + 2) / 5 + 1 = d := by
  subst hdoy; interval_cases mp <;> omega

lemma yoeRecover (yoe doy doe : Int) (hdoe : doe = yoe * 365 + yoe / 4 - yoe / 100 + doy)
    (h1 : 0 ≤ yoe) (h2 : yoe ≤ 399) (h3 : 0 ≤ doy)
    (h4 : doy ≤ 364 + (if (yoe + 1) % 4 = 0 ∧ ((yoe + 1) % 100 ≠ 0 ∨ (yoe + 1) % 400 = 0) then 1 else 0)) :
    (doe - doe / 1460 + doe / 36524 - doe / 146096) / 365 = yoe ∧ 0 ≤ doe ∧ doe ≤ 146096 := by
  subst hdoe; interval_cases yoe <;> omega

/-- The civil-from-days conversion inverts days-from-civil on every valid
Gregorian calendar date. -/
theorem civilFromDays_daysFromCivil (y m d : Int)
    (hm1 : 1 ≤ m) (hm2 : m ≤ 12)
    (hd1 : 1 ≤ d) (hd2 : d ≤ daysInMonth y m) :
    civilFromDays (daysFromCivil y m d) = (y, m, d) := by
  simp only [daysInMonth, isLeapYear] at hd2
  obtain ⟨Y, hY⟩ : ∃ t, t = y - (if m ≤ 2 then 1 else 0) := ⟨_, rfl⟩
  obtain ⟨ERA, hERA⟩ : ∃ t, t = Y / 400 := ⟨_, rfl⟩
  obtain ⟨YOE, hYOE⟩ : ∃ t, t = Y - ERA * 400 := ⟨_, rfl⟩
  obtain ⟨MP, hMP⟩ : ∃ t, t = (m + 9) % 12 := ⟨_, rfl⟩
  obtain ⟨DOY, hDOY⟩ : ∃ t, t = (153 * MP + 2) / 5 + d - 1 := ⟨_, rfl⟩
  obtain ⟨DOE, hDOE⟩ : ∃ t, t = YOE * 365 + YOE / 4 - YOE / 100 + DOY := ⟨_, rfl⟩
  have hmr := monthRecover MP d DOY hDOY (by omega) (by omega) hd1
    (by interval_cases m <;> omega)
  have hyr := yoeRecover YOE DOY DOE hDOE (by omega) (by omega) (by omega)
    (by interval_cases m <;> omega)
  rw [daysFromCivil_char y m d Y ERA YOE MP DOY DOE hY hERA hYOE hMP hDOY hDOE]
  obtain ⟨z, hz⟩ : ∃ t, t = ERA * 146097 + DOE - 719468 := ⟨_, rfl⟩
  rw [← hz]
  obtain ⟨ERA2, hERA2⟩ : ∃ t, t = (z + 719468) / 146097 := ⟨_, rfl⟩
  obtain ⟨DOE2, hDOE2⟩ : ∃ t, t = z + 719468 - ERA2 * 146097 := ⟨_, rfl⟩
  obtain ⟨YOE2, hYOE2⟩ : ∃ t, t = (DOE2 - DOE2 / 1460 + DOE2 / 36524 - DOE2 / 146096) / 365 := ⟨_, rfl⟩
  obtain ⟨DOY2, hDOY2⟩ : ∃ t, t = DOE2 - (365 * YOE2 + YOE2 / 4 - YOE2 / 100) := ⟨_, rfl⟩
  obtain ⟨MP2, hMP2⟩ : ∃ t, t = (5 * DOY2 + 2) / 153 := ⟨_, rfl⟩
  rw [civilFromDays_char z ERA2 DOE2 YOE2 DOY2 MP2 hERA2 hDOE2 hYOE2 hDOY2 hMP2]
  rw [hz] at hERA2
  have e1 : (ERA * 146097 + DOE - 719468 + 719468) / 146097 = ERA := by
    have := hyr.2
    clear hd2 hmr hY hERA hYOE hMP hDOY hDOE hyr
    omega
  rw [e1] at hERA2
  rw [hERA2, hz] at hDOE2
  have e2 : ERA * 146097 + DOE - 719468 + 719468 - ERA * 146097 = DOE := by ring
  rw [e2] at hDOE2
  rw [hDOE2] at hYOE2
  rw [hyr.1] at hYOE2
  rw [hYOE2, hDOE2] at hDOY2
  have e3 : DOE - (365 * YOE + YOE / 4 - YOE / 100) = DOY := by
    clear hd2 hmr hyr hY hERA hYOE hMP hDOY
    omega
  rw [e3] at hDOY2
  rw [hDOY2] at hMP2
  rw [hmr.1] at hMP2
  rw [hERA2, hYOE2, hDOY2, hMP2]
  simp only [Prod.mk.injEq]
  refine ⟨?_, ?_, hmr.2⟩
  · clear hd2 hmr hyr hDOY hDOE hMP2 hDOY2 hYOE2 hDOE2 hERA2 hz e1 e2 e3
    omega
  · clear hd2 hmr hyr hY hERA hYOE hDOY hDOE hMP2 hDOY2 hYOE2 hDOE2 hERA2 hz e1 e2 e3
    omega

/-! ### Model of the JavaScript Date runtime and the date-fns collaborator -/

/-- ECMAScript TimeClip: a time value is valid only within 8.64e15 ms of the
epoch; outside the range a Date is invalid (`none`). -/
def timeClip (t : Int) : Option Int :=
  if -8640000000000000 ≤ t ∧ t ≤ 8640000000000000 then some t else none

/-- UTC epoch milliseconds of the civil components `y-mo-d h:mi:s.ms`. -/
def utcEpochMs (y mo d h mi s ms : Int) : Int :=
  daysFromCivil y mo d * 86400000 + h * 3600000 + mi * 60000 + s * 1000 + ms

/-- Model of the JS `new Date(year, month, day)` constructor: a year 0..99 is
interpreted as 1900+year, the zero-based month overflows into the year
(MakeDay), day overflow extends arithmetically, and the components denote
local wall time (`tz` is the milliseconds added to UTC to obtain local time). -/
def jsNewDateYMD (y m d tz : Int) : Option Int :=
  let yr := if 0 ≤ y ∧ y ≤ 99 then 1900 + y else y
  let ym := yr + m / 12
  let mn := m % 12
  timeClip (daysFromCivil ym (mn + 1) d * 86400000 - tz)

/-- Character of a single decimal digit 0..9 (other inputs map to 9). -/
def digitChar (n : Int) : Char :=
  if n = 0 then '0' else if n = 1 then '1' else if n = 2 then '2'
  else if n = 3 then '3' else if n = 4 then '4' else if n = 5 then '5'
  else if n = 6 then '6' else if n = 7 then '7' else if n = 8 then '8' else '9'

/-- Numeric value of a decimal digit character, `none` for non-digits. -/
def dVal (c : Char) : Option Int :=
  if c.isDigit then some ((c.toNat : Int) - 48) else none

/-- Two-digit zero-padded decimal rendering (of `n % 100`). -/
def pad2 (n : Int) : String := String.mk [digitChar (n / 10 % 10), digitChar (n % 10)]

/-- Three-digit zero-padded decimal rendering (of `n % 1000`). -/
def pad3 (n : Int) : String :=
  String.mk [digitChar (n / 100 % 10), digitChar (n / 10 % 10), digitChar (n % 10)]

/-- Four-digit zero-padded decimal rendering (of `n % 10000`). -/
def pad4 (n : Int) : String :=
  String.mk [digitChar (n / 1000 % 10), digitChar (n / 100 % 10),
    digitChar (n / 10 % 10), digitChar (n % 10)]

/-- Six-digit zero-padded decimal rendering, used for expanded ISO years. -/
def pad6 (n : Int) : String :=
  String.mk [digitChar (n / 100000 % 10), digitChar (n / 10000 % 10),
    digitChar (n / 1000 % 10), digitChar (n / 100 % 10),
    digitChar (n / 10 % 10), digitChar (n % 10)]

/-- Model of JS `Date.prototype.toISOString`: UTC components rendered as
`YYYY-MM-DDTHH:mm:ss.sssZ` (years outside 0..9999 use the expanded
six-digit form). -/
def toISOString (e : Int) : String :=
  let r := e % 86400000
  match civilFromDays (e / 86400000) with
  | (y, mo, d) =>
    (if 0 ≤ y ∧ y ≤ 9999 then pad4 y
     else (if y < 0 then "-" else "+") ++ pad6 (if y < 0 then -y else y)) ++
    "-" ++ pad2 mo ++ "-" ++ pad2 d ++ "T" ++ pad2 (r / 3600000) ++ ":" ++
    pad2 (r % 3600000 / 60000) ++ ":" ++ pad2 (r % 60000 / 1000) ++ "." ++
    pad3 (r % 1000) ++ "Z"

/-- The canonical ISO-8601 string with millisecond precision and UTC
designator built from components. -/
def isoString (y mo d h mi s ms : Int) : String :=
  pad4 y ++ "-" ++ pad2 mo ++ "-" ++ pad2 d ++ "T" ++ pad2 h ++ ":" ++
  pad2 mi ++ ":" ++ pad2 s ++ "." ++ pad3 ms ++ "Z"

/-- Parse two decimal digit characters. -/
def parse2 (a b : Char) : Option Int :=
  match dVal a, dVal b with
  | some x, some y => some (10 * x + y)
  | _, _ => none

/-- Parse three decimal digit characters. -/
def parse3 (a b c : Char) : Option Int :=
  match dVal a, dVal b, dVal c with
  | some x, some y, some z => some (100 * x + 10 * y + z)
  | _, _, _ => none

/-- Parse four decimal digit characters. -/
def parse4 (a b c d : Char) : Option Int :=
  match dVal a, dVal b, dVal c, dVal d with
  | some w, some x, some y, some z => some (1000 * w + 100 * x + 10 * y + z)
  | _, _, _, _ => none

/-- Parse the ECMAScript time zone designator: absent (local time), `Z`, or
`±HH:MM`.  Yields `none` on a malformed designator, `some none` for local
time, and `some (some off)` for an explicit offset of `off` milliseconds. -/
def parseTZDesignator : List Char → Option (Option Int)
  | [] => some none
  | ['Z'] => some (some 0)
  | ['+', a, b, ':', c, d] =>
    (match parse2 a b, parse2 c d with
     | some h, some mi =>
       if h ≤ 23 ∧ mi ≤ 59 then some (some ((h * 60 + mi) * 60000)) else none
     | _, _ => none)
  | ['-', a, b, ':', c, d] =>
    (match parse2 a b, parse2 c d with
     | some h, some mi =>
       if h ≤ 23 ∧ mi ≤ 59 then some (some (-((h * 60 + mi) * 60000))) else none
     | _, _ => none)
  | _ => none

/-- Parse the optional `:ss` and `.sss` part of an ISO time; returns the
parsed milliseconds together with the unconsumed tail. -/
def parseSecondsPart : List Char → Option (Int × List Char)
  | ':' :: a :: b :: rest =>
    (match parse2 a b with
     | some s =>
       if s ≤ 59 then
         match rest with
         | '.' :: c :: d :: e :: rest2 =>
           (match parse3 c d e with
            | some ms => some (s * 1000 + ms, rest2)
            | none => none)
         | _ => some (s * 1000, rest)
       else none
     | none => none)
  | rest => some (0, rest)

/-- Parse an ISO time `HH:mm[:ss[.sss]]` followed by a time zone designator;
returns the milliseconds-of-day and the offset specification. -/
def parseTimePart (cs : List Char) : Option (Int × Option Int) :=
  match cs with
  | a :: b :: ':' :: c :: d :: rest =>
    (match parse2 a b, parse2 c d with
     | some h, some mi =>
       if h ≤ 23 ∧ mi ≤ 59 then
         match parseSecondsPart rest with
         | some (sms, rest2) =>
           (match parseTZDesignator rest2 with
            | some off => some (h * 3600000 + mi * 60000 + sms, off)
            | none => none)
         | none => none
       else none
     | _, _ => none)
  | _ => none

/-- Parse the leading `YYYY-MM-DD` of an ISO string, validating the month and
the day against the Gregorian calendar (as V8 does); returns the components
and the unconsumed tail. -/
def parseDatePart : List Char → Option (Int × Int × Int × List Char)
  | a :: b :: c :: d :: '-' :: e :: f :: '-' :: g :: h :: rest =>
    (match parse4 a b c d, parse2 e f, parse2 g h with
     | some y, some mo, some dd =>
       if 1 ≤ mo ∧ mo ≤ 12 ∧ 1 ≤ dd ∧ dd ≤ daysInMonth y mo then
         some (y, mo, dd, rest)
       else none
     | _, _, _ => none)
  | _ => none

/-- Model of `new Date(string)`: the ECMAScript date-time string format
`YYYY-MM-DD[THH:mm[:ss[.sss]][Z|±HH:MM]]`.  A date-only string denotes UTC
midnight; a date-time without offset denotes local time.  Strings outside
this grammar are invalid (`none`). -/
def jsParseDate (s : String) (tz : Int) : Option Int :=
  match parseDatePart s.data with
  | none => none
  | some (y, mo, dd, rest) =>
    match rest with
    | [] => timeClip (daysFromCivil y mo dd * 86400000)
    | 'T' :: timecs =>
      (match parseTimePart timecs with
       | none => none
       | some (msOfDay, offSpec) =>
         match offSpec with
         | some off => timeClip (daysFromCivil y mo dd * 86400000 + msOfDay - off)
         | none => timeClip (daysFromCivil y mo dd * 86400000 + msOfDay - tz))
    | _ => none

/-- English abbreviated month name, months 1..12. -/
def monthShortName (m : Int) : String :=
  if m = 1 then "Jan" else if m = 2 then "Feb" else if m = 3 then "Mar"
  else if m = 4 then "Apr" else if m = 5 then "May" else if m = 6 then "Jun"
  else if m = 7 then "Jul" else if m = 8 then "Aug" else if m = 9 then "Sep"
  else if m = 10 then "Oct" else if m = 11 then "Nov" else "Dec"

/-- English full month name, months 1..12. -/
def monthLongName (m : Int) : String :=
  if m = 1 then "January" else if m = 2 then "February" else if m = 3 then "March"
  else if m = 4 then "April" else if m = 5 then "May" else if m = 6 then "June"
  else if m = 7 then "July" else if m = 8 then "August" else if m = 9 then "September"
  else if m = 10 then "October" else if m = 11 then "November" else "December"

/-- Render one date-fns format token: the letter `c` repeated `len` times,
over the local components.  The letters implemented are the ones reachable
from this library (`y M d H m s`); every other Latin letter is rejected,
modelling the RangeError date-fns throws on an unknown or unescaped token. -/
def dfToken (y mo d h mi s : Int) (c : Char) (len : Nat) : Option String :=
  if c = 'y' then some (if len = 2 then pad2 (y % 100) else pad4 y)
  else if c = 'M' then
    some (if len = 1 then toString mo else if len = 2 then pad2 mo
      else if len = 3 then monthShortName mo else monthLongName mo)
  else if c = 'd' then some (if len = 1 then toString d else pad2 d)
  else if c = 'H' then some (if len = 1 then toString h else pad2 h)
  else if c = 'm' then some (if len = 1 then toString mi else pad2 mi)
  else if c = 's' then some (if len = 1 then toString s else pad2 s)
  else none

/-- Flush a pending token run (`none` when no run is pending). -/
def dfFlush (y mo d h mi s : Int) : Option (Char × Nat) → Option String
  | none => some ""
  | some (p, k) => dfToken y mo d h mi s p k

/-- Worker of the pattern renderer: walks the pattern keeping the pending
maximal run of a Latin letter; non-letters are literal. -/
def dfRenderGo (y mo d h mi s : Int) (pending : Option (Char × Nat)) :
    List Char → Option String
  | [] => dfFlush y mo d h mi s pending
  | c :: cs =>
    if c.isAlpha then
      match pending with
      | some (p, k) =>
        if c = p then dfRenderGo y mo d h mi s (some (p, k + 1)) cs
        else
          match dfFlush y mo d h mi s pending, dfRenderGo y mo d h mi s (some (c, 1)) cs with
          | some piece, some rest => some (piece ++ rest)
          | _, _ => none
      | none => dfRenderGo y mo d h mi s (some (c, 1)) cs
    else
      match dfFlush y mo d h mi s pending, dfRenderGo y mo d h mi s none cs with
      | some piece, some rest => some (piece ++ (String.mk [c] ++ rest))
      | _, _ => none

/-- Render a date-fns pattern over local components: maximal runs of a Latin
letter form tokens, any other character is literal. -/
def dfRender (y mo d h mi s : Int) (cs : List Char) : Option String :=
  dfRenderGo y mo d h mi s none cs

/-- Model of date-fns `format(date, pattern, {locale})`: formats the instant
`e` in local time with the given pattern; `none` models the RangeError
thrown on a pattern with an unsupported token.  The locale argument only
affects name tables and is not modelled. -/
def dfFormat (e : Int) (pattern : String) (tz : Int) : Option String :=
  let lt := e + tz
  match civilFromDays (lt / 86400000) with
  | (y, mo, d) =>
    dfRender y mo d (lt % 86400000 / 3600000) (lt % 86400000 % 3600000 / 60000)
      (lt % 86400000 % 60000 / 1000) pattern.data

/-- Model of date-fns `formatDistance(date, now, {addSuffix: true})`: a
human-readable distance with an "ago"/"in" suffix.  The bucket thresholds
follow date-fns with simplified rounding; only the fact that the result is
a string matters to the claims below. -/
def formatDistanceModel (d now : Int) : String :=
  let diff := now - d
  let amin := (if diff < 0 then -diff else diff) / 60000
  let core :=
    if amin < 1 then "less than a minute"
    else if amin = 1 then "1 minute"
    else if amin < 45 then toString amin ++ " minutes"
    else if amin < 90 then "about 1 hour"
    else if amin < 1440 then "about " ++ toString ((amin + 30) / 60) ++ " hours"
    else if amin < 2880 then "1 day"
    else if amin < 43200 then toString (amin / 1440) ++ " days"
    else if amin < 86400 then "about 1 month"
    else if amin < 518400 then toString (amin / 43200) ++ " months"
    else if amin < 1036800 then "about 1 year"
    else toString (amin / 525600) ++ " years"
  if diff < 0 then "in " ++ core else core ++ " ago"

/-! ### The data model of src/index.ts -/

/-- A rendered value: JS `string | number`. -/
inductive JSValue
  | str (s : String)
  | num (n : Int)
deriving DecidableEq

/-- The `DateInput` union `Date | number | string`; `other` stands for any
value outside the union (reachable in untyped JS). -/
inductive DateInput
  | date (d : Option Int)
  | num (n : Int)
  | str (s : String)
  | other
deriving DecidableEq

/-- The `timestampUnit` option values. -/
inductive TimestampUnit
  | seconds
  | milliseconds
deriving DecidableEq

/-- The `DateOutputFormat` union, one constructor per format string:
`ISO`, `YYYY-MM-DD`, `YYYY-MM-DD HH:MM`, `MMM D, YYYY`, `MMMM D, YYYY`,
`MMM D, HH:mm`, `MMM D YYYY, HH:mm`, `timestamp-seconds`, `timestamp-ms`,
`relative`, `month-day`, `custom`. -/
inductive DateOutputFormat
  | ISO
  | YYYYMMDD
  | YYYYMMDDHHMM
  | MMMDYYYY
  | MMMMDYYYY
  | MMMDHHmm
  | MMMDYYYYHHmm
  | timestampSeconds
  | timestampMs
  | relative
  | monthDay
  | custom
deriving DecidableEq

/-- The `DateUtilOptions` bag; every field is optional as in the source. -/
structure DateUtilOptions where
  locale : Option String := none
  timestampUnit : Option TimestampUnit := none
  customFormat : Option String := none
deriving DecidableEq

/-- The `DateResult` record; optional fields are `none` when absent. -/
structure DateResult where
  success : Bool
  value : Option JSValue := none
  error : Option String := none
  date : Option Int := none
deriving DecidableEq

/-! ### The operations of src/index.ts -/

/-- The effective timestamp unit: the destructuring default is `"seconds"`. -/
def effUnit (options : DateUtilOptions) : TimestampUnit :=
  options.timestampUnit.getD TimestampUnit.seconds

/-- Components of `input.split("-").map(Number)` for a string matching the
regular expression `^\d{4}-\d{2}-\d{2}$` of `formatDate`: `none` exactly
when the string does not match the pattern. -/
def splitYMD (s : String) : Option (Int × Int × Int) :=
  match s.data with
  | [a, b, c, d, '-', e, f, '-', g, h] =>
    (match parse4 a b c d, parse2 e f, parse2 g h with
     | some y, some mo, some dd => some (y, mo, dd)
     | _, _, _ => none)
  | _ => none

/-- The input normalization of `formatDate` (src/index.ts lines 75-103):
a Date object passes through, a number chooses milliseconds by the
magnitude heuristic or the explicit option and otherwise is scaled from
seconds, a string goes through the general-purpose parse with the
`YYYY-MM-DD` component fallback (month decremented, local constructor).
`none` is an invalid date; the unsupported shape is handled by the caller. -/
def normalizeInput (input : DateInput) (options : DateUtilOptions) (tz : Int) : Option Int :=
  match input with
  | .date dobj => dobj
  | .num n =>
    let isMilliseconds := n > 10000000000 ∨ effUnit options = TimestampUnit.milliseconds
    timeClip (if isMilliseconds then n else n * 1000)
  | .str s =>
    (match jsParseDate s tz with
     | some t => some t
     | none =>
       match splitYMD s with
       | some (y, mo, dd) => jsNewDateYMD y (mo - 1) dd tz
       | none => none)
  | .other => none

/-- A successful `DateResult` carrying the rendered value and the instant. -/
def okResult (v : JSValue) (date : Int) : DateResult :=
  { success := true, value := some v, date := some date }

/-- A failed `DateResult` carrying only an error message. -/
def errResult (msg : String) : DateResult :=
  { success := false, error := some msg }

/-- Message of the date-fns RangeError on an unknown format token, surfaced
through the outer catch of `formatDate` (unreachable for the fixed patterns
used by the named formats). -/
def unescapedTokenMsg : String :=
  "Format string contains an unescaped latin alphabet character"

/-- Render one of the fixed named formats through the date-fns formatter; a
RangeError from the formatter is converted by the outer catch of
`formatDate` into a parsing-error failure. -/
def renderPattern (date : Int) (p : String) (tz : Int) : DateResult :=
  match dfFormat date p tz with
  | some v => okResult (JSValue.str v) date
  | none => errResult ("Date parsing error: " ++ unescapedTokenMsg)

/-- The format dispatch of `formatDate` (src/index.ts lines 117-186), over a
valid normalized instant. -/
def renderFormat (date : Int) (outputFormat : DateOutputFormat)
    (options : DateUtilOptions) (now tz : Int) : DateResult :=
  match outputFormat with
  | .ISO => okResult (JSValue.str (toISOString date)) date
  | .YYYYMMDD => renderPattern date "yyyy-MM-dd" tz
  | .YYYYMMDDHHMM => renderPattern date "yyyy-MM-dd HH:mm" tz
  | .MMMDYYYY => renderPattern date "MMM d, yyyy" tz
  | .MMMMDYYYY => renderPattern date "MMMM d, yyyy" tz
  | .MMMDHHmm => renderPattern date "MMM d, HH:mm" tz
  | .MMMDYYYYHHmm => renderPattern date "MMM d, yyyy, HH:mm" tz
  | .timestampSeconds => okResult (JSValue.num (date / 1000)) date
  | .timestampMs => okResult (JSValue.num date) date
  | .relative => okResult (JSValue.str (formatDistanceModel date now)) date
  | .monthDay => renderPattern date "MMM d" tz
  | .custom =>
    match options.customFormat with
    | none => errResult "Custom format requires \x27customFormat\x27 option to be provided"
    | some cf =>
      if cf = "" then
        errResult "Custom format requires \x27customFormat\x27 option to be provided"
      else
        match dfFormat date cf tz with
        | some v => okResult (JSValue.str v) date
        | none => errResult ("Invalid custom format: " ++ cf)

/-- Model of `formatDate` (src/index.ts lines 64-199).  The impure readings
of the original — the current instant and the host time zone — are the
explicit parameters `now` and `tz`. -/
def formatDate (input : DateInput) (outputFormat : DateOutputFormat)
    (options : DateUtilOptions) (now tz : Int) : DateResult :=
  match input with
  | .other => errResult "Unsupported input format."
  | _ =>
    match normalizeInput input options tz with
    | none => errResult "Invalid date."
    | some date => renderFormat date outputFormat options now tz

/-- Model of `convertDate` (src/index.ts lines 209-216): unwrap the value on
success, `null` otherwise. -/
def convertDate (input : DateInput) (outputFormat : DateOutputFormat)
    (options : DateUtilOptions) (now tz : Int) : Option JSValue :=
  let result := formatDate input outputFormat options now tz
  if result.success then result.value else none

/-- The inline input normalization of `getSmartDate` (src/index.ts lines
237-248): identical to `normalizeInput` on Date and numeric inputs, but a
string input gets only the general-purpose parse, without the `YYYY-MM-DD`
component fallback of `formatDate`. -/
def smartNormalize (input : DateInput) (options : DateUtilOptions) (tz : Int) : Option Int :=
  match input with
  | .date dobj => dobj
  | .num n =>
    let isMilliseconds := n > 10000000000 ∨ effUnit options = TimestampUnit.milliseconds
    timeClip (if isMilliseconds then n else n * 1000)
  | .str s => jsParseDate s tz
  | .other => none

/-- Local calendar year of the instant `e` (JS `getFullYear`). -/
def jsGetFullYear (e tz : Int) : Int := (civilFromDays ((e + tz) / 86400000)).1

/-- Model of `getSmartDate` (src/index.ts lines 229-274): normalize, select a
format from the distance to `now` and the calendar years, delegate to
`convertDate`.  The comparison `diffInHours <= 24` is expressed on
milliseconds. -/
def getSmartDate (input : DateInput) (options : DateUtilOptions) (now tz : Int) :
    Option JSValue :=
  match input with
  | .other => none
  | _ =>
    match smartNormalize input options tz with
    | none => none
    | some date =>
      let timeFormat :=
        if now - date ≤ 24 * (1000 * 60 * 60) then DateOutputFormat.relative
        else if jsGetFullYear now tz = jsGetFullYear date tz then DateOutputFormat.MMMDHHmm
        else DateOutputFormat.MMMDYYYYHHmm
      convertDate (DateInput.date (some date)) timeFormat options now tz

/-! ### Result-shape helpers -/

lemma renderFormat_shape (date : Int) (fmt : DateOutputFormat)
    (opts : DateUtilOptions) (now tz : Int) :
    (∃ v, renderFormat date fmt opts now tz = okResult v date) ∨
    (∃ msg, renderFormat date fmt opts now tz = errResult msg) := by
  have hpat : ∀ p, (∃ v, renderPattern date p tz = okResult v date) ∨
      (∃ msg, renderPattern date p tz = errResult msg) := by
    intro p
    unfold renderPattern
    rcases dfFormat date p tz with _ | v
    · exact Or.inr ⟨_, rfl⟩
    · exact Or.inl ⟨_, rfl⟩
  cases fmt
  case ISO => exact Or.inl ⟨_, rfl⟩
  case YYYYMMDD => exact hpat "yyyy-MM-dd"
  case YYYYMMDDHHMM => exact hpat "yyyy-MM-dd HH:mm"
  case MMMDYYYY => exact hpat "MMM d, yyyy"
  case MMMMDYYYY => exact hpat "MMMM d, yyyy"
  case MMMDHHmm => exact hpat "MMM d, HH:mm"
  case MMMDYYYYHHmm => exact hpat "MMM d, yyyy, HH:mm"
  case timestampSeconds => exact Or.inl ⟨_, rfl⟩
  case timestampMs => exact Or.inl ⟨_, rfl⟩
  case relative => exact Or.inl ⟨_, rfl⟩
  case monthDay => exact hpat "MMM d"
  case custom =>
    unfold renderFormat
    rcases opts.customFormat with _ | cf
    · exact Or.inr ⟨_, rfl⟩
    · by_cases hcf : cf = ""
      · simp only [if_pos hcf]
        exact Or.inr ⟨_, rfl⟩
      · simp only [if_neg hcf]
        rcases dfFormat date cf tz with _ | v
        · exact Or.inr ⟨_, rfl⟩
        · exact Or.inl ⟨_, rfl⟩

lemma formatDate_eq (input : DateInput) (fmt : DateOutputFormat)
    (opts : DateUtilOptions) (now tz : Int) (h : input ≠ DateInput.other) :
    formatDate input fmt opts now tz =
      match normalizeInput input opts tz with
      | none => errResult "Invalid date."
      | some date => renderFormat date fmt opts now tz := by
  cases input
  case other => exact absurd rfl h
  all_goals rfl

lemma formatDate_shape (input : DateInput) (fmt : DateOutputFormat)
    (opts : DateUtilOptions) (now tz : Int) :
    (∃ d v, normalizeInput input opts tz = some d ∧
      formatDate input fmt opts now tz = okResult v d) ∨
    (∃ msg, formatDate input fmt opts now tz = errResult msg) := by
  by_cases hio : input = DateInput.other
  · subst hio
    exact Or.inr ⟨"Unsupported input format.", rfl⟩
  · rw [formatDate_eq input fmt opts now tz hio]
    rcases h : normalizeInput input opts tz with _ | d
    · exact Or.inr ⟨"Invalid date.", rfl⟩
    · rcases renderFormat_shape d fmt opts now tz with ⟨v, hv⟩ | ⟨msg, hm⟩
      · exact Or.inl ⟨d, v, rfl, hv⟩
      · exact Or.inr ⟨msg, hm⟩

/-! ### Claim theorems -/

/-- C4: `formatDate` never throws: every outcome is a `DateResult`, a failing
one always carries a defined error message, and an exception raised by the
collaborator formatter inside the named-format dispatch is caught and
reported as a parsing-error failure carrying the underlying message. -/
theorem formatDate_errors_are_values :
    (∀ input fmt opts now tz,
      (formatDate input fmt opts now tz).success = true ∨
      ((formatDate input fmt opts now tz).success = false ∧
        ∃ msg, (formatDate input fmt opts now tz).error = some msg)) ∧
    (∀ date p tz, dfFormat date p tz = none →
      renderPattern date p tz =
        errResult ("Date parsing error: " ++ unescapedTokenMsg)) := by
  constructor
  · intro input fmt opts now tz
    rcases formatDate_shape input fmt opts now tz with ⟨d, v, _, hv⟩ | ⟨msg, hm⟩
    · exact Or.inl (by simp [hv, okResult])
    · refine Or.inr ⟨by simp [hm, errResult], msg, by simp [hm, errResult]⟩
  · intro date p tz h
    unfold renderPattern
    rw [h]

theorem formatDate_errors_are_values_witness :
    dfFormat 0 "J" 0 = none ∧
    renderPattern 0 "J" 0 = errResult ("Date parsing error: " ++ unescapedTokenMsg) :=
  ⟨by decide, formatDate_errors_are_values.2 0 "J" 0 (by decide)⟩

/-- C9: a successful Result carries the normalized instant in its `date`
field and a rendered value, with no error; a failed Result carries only a
defined error message, with no value and no date. -/
theorem formatDate_result_shape (input : DateInput) (fmt : DateOutputFormat)
    (opts : DateUtilOptions) (now tz : Int) :
    ((formatDate input fmt opts now tz).success = true →
      (formatDate input fmt opts now tz).date = normalizeInput input opts tz ∧
      (formatDate input fmt opts now tz).date.isSome = true ∧
      (formatDate input fmt opts now tz).value.isSome = true ∧
      (formatDate input fmt opts now tz).error = none) ∧
    ((formatDate input fmt opts now tz).success = false →
      (formatDate input fmt opts now tz).value = none ∧
      (formatDate input fmt opts now tz).date = none ∧
      ∃ msg, (formatDate input fmt opts now tz).error = some msg) := by
  rcases formatDate_shape input fmt opts now tz with ⟨d, v, hd, hv⟩ | ⟨msg, hm⟩
  · constructor
    · intro _
      rw [hv, hd]
      simp [okResult]
    · intro hfalse
      rw [hv] at hfalse
      simp [okResult] at hfalse
  · constructor
    · intro htrue
      rw [hm] at htrue
      simp [errResult] at htrue
    · intro _
      rw [hm]
      simp [errResult]

theorem formatDate_result_shape_witness :
    (formatDate (DateInput.str "2023-05-15") DateOutputFormat.ISO {} 0 0).date =
      normalizeInput (DateInput.str "2023-05-15") {} 0 ∧
    (formatDate (DateInput.str "invalid") DateOutputFormat.ISO {} 0 0).value = none :=
  ⟨((formatDate_result_shape (DateInput.str "2023-05-15") DateOutputFormat.ISO {} 0 0).1
      (by decide)).1,
   ((formatDate_result_shape (DateInput.str "invalid") DateOutputFormat.ISO {} 0 0).2
      (by decide)).1⟩

/-- C2: a numeric input is interpreted as milliseconds exactly when it
exceeds 10,000,000,000 or the (destructured) `timestampUnit` is
`milliseconds`, and is multiplied by 1000 otherwise; `formatDate` and
`getSmartDate` normalize numbers by the same rule, so a huge value forces
the milliseconds interpretation even under an explicit `seconds` option. -/
theorem numeric_normalization (n : Int) (opts : DateUtilOptions) (now tz : Int) :
    (formatDate (DateInput.num n) DateOutputFormat.timestampMs opts now tz).date =
      timeClip (if n > 10000000000 ∨ effUnit opts = TimestampUnit.milliseconds then n
        else n * 1000) ∧
    smartNormalize (DateInput.num n) opts tz =
      timeClip (if n > 10000000000 ∨ effUnit opts = TimestampUnit.milliseconds then n
        else n * 1000) := by
  refine ⟨?_, rfl⟩
  rcases h : timeClip (if n > 10000000000 ∨ effUnit opts = TimestampUnit.milliseconds then n
      else n * 1000) with _ | d
  · simp [formatDate, normalizeInput, h, errResult]
  · simp [formatDate, normalizeInput, h, renderFormat, okResult]

/-- C6: `convertDate` returns the `value` field of the `formatDate` Result
when it is a success and `null` otherwise. -/
theorem convertDate_unwraps (input : DateInput) (fmt : DateOutputFormat)
    (opts : DateUtilOptions) (now tz : Int) :
    ((formatDate input fmt opts now tz).success = true →
      convertDate input fmt opts now tz = (formatDate input fmt opts now tz).value) ∧
    ((formatDate input fmt opts now tz).success = false →
      convertDate input fmt opts now tz = none) := by
  unfold convertDate
  constructor <;> intro h <;> simp [h]

theorem convertDate_unwraps_witness :
    convertDate (DateInput.str "2023-05-15") DateOutputFormat.ISO {} 0 0 =
      (formatDate (DateInput.str "2023-05-15") DateOutputFormat.ISO {} 0 0).value ∧
    convertDate (DateInput.str "bad") DateOutputFormat.ISO {} 0 0 = none :=
  ⟨(convertDate_unwraps (DateInput.str "2023-05-15") DateOutputFormat.ISO {} 0 0).1
      (by decide),
   (convertDate_unwraps (DateInput.str "bad") DateOutputFormat.ISO {} 0 0).2 (by decide)⟩

lemma getSmartDate_eq (input : DateInput) (opts : DateUtilOptions) (now tz : Int)
    (h : input ≠ DateInput.other) :
    getSmartDate input opts now tz =
      match smartNormalize input opts tz with
      | none => none
      | some date =>
        convertDate (DateInput.date (some date))
          (if now - date ≤ 24 * (1000 * 60 * 60) then DateOutputFormat.relative
           else if jsGetFullYear now tz = jsGetFullYear date tz then DateOutputFormat.MMMDHHmm
           else DateOutputFormat.MMMDYYYYHHmm) opts now tz := by
  cases input
  case other => exact absurd rfl h
  all_goals rfl

lemma smart_formats_render_strings (date : Int) (opts : DateUtilOptions) (now tz : Int)
    (fmt : DateOutputFormat)
    (hf : fmt = DateOutputFormat.relative ∨ fmt = DateOutputFormat.MMMDHHmm ∨
      fmt = DateOutputFormat.MMMDYYYYHHmm) :
    convertDate (DateInput.date (some date)) fmt opts now tz = none ∨
    ∃ s, convertDate (DateInput.date (some date)) fmt opts now tz = some (JSValue.str s) := by
  have hfd : formatDate (DateInput.date (some date)) fmt opts now tz =
      renderFormat date fmt opts now tz := by
    rw [formatDate_eq (DateInput.date (some date)) fmt opts now tz (by simp)]
    rfl
  rcases hf with rfl | rfl | rfl
  · right
    exact ⟨formatDistanceModel date now,
      by simp [convertDate, hfd, renderFormat, okResult]⟩
  · rcases h : dfFormat date "MMM d, HH:mm" tz with _ | v
    · left
      simp [convertDate, hfd, renderFormat, renderPattern, h, errResult]
    · right
      exact ⟨v, by simp [convertDate, hfd, renderFormat, renderPattern, h, okResult]⟩
  · rcases h : dfFormat date "MMM d, yyyy, HH:mm" tz with _ | v
    · left
      simp [convertDate, hfd, renderFormat, renderPattern, h, errResult]
    · right
      exact ⟨v, by simp [convertDate, hfd, renderFormat, renderPattern, h, okResult]⟩

/-- C10: `getSmartDate` returns a string or `null`, never a number: each of
the three formats it can select renders a string value. -/
theorem getSmartDate_string_or_null (input : DateInput) (opts : DateUtilOptions)
    (now tz : Int) :
    getSmartDate input opts now tz = none ∨
    ∃ s, getSmartDate input opts now tz = some (JSValue.str s) := by
  by_cases hio : input = DateInput.other
  · subst hio
    exact Or.inl rfl
  · rcases hsm : smartNormalize input opts tz with _ | d
    · have hg : getSmartDate input opts now tz = none := by
        rw [getSmartDate_eq input opts now tz hio, hsm]
      exact Or.inl hg
    · have hg : getSmartDate input opts now tz =
          convertDate (DateInput.date (some d))
            (if now - d ≤ 24 * (1000 * 60 * 60) then DateOutputFormat.relative
             else if jsGetFullYear now tz = jsGetFullYear d tz then DateOutputFormat.MMMDHHmm
             else DateOutputFormat.MMMDYYYYHHmm) opts now tz := by
        rw [getSmartDate_eq input opts now tz hio, hsm]
      rw [hg]
      by_cases h1 : now - d ≤ 24 * (1000 * 60 * 60)
      · rw [if_pos h1]
        exact smart_formats_render_strings d opts now tz DateOutputFormat.relative (Or.inl rfl)
      · by_cases h2 : jsGetFullYear now tz = jsGetFullYear d tz
        · rw [if_neg h1, if_pos h2]
          exact smart_formats_render_strings d opts now tz DateOutputFormat.MMMDHHmm
            (Or.inr (Or.inl rfl))
        · rw [if_neg h1, if_neg h2]
          exact smart_formats_render_strings d opts now tz DateOutputFormat.MMMDYYYYHHmm
            (Or.inr (Or.inr rfl))

/-- C1 counterexample: `formatDate` normalizes the string "2023-13-45"
through the `YYYY-MM-DD` component fallback (rolling the out-of-range
month and day over), while `getSmartDate`, whose string path lacks the
fallback, yields `null` — so `getSmartDate` does not use the same input
normalizer as `formatDate`, and an input `formatDate` normalizes
successfully is not normalized by `getSmartDate`. -/
theorem getSmartDate_missing_fallback_cex :
    (formatDate (DateInput.str "2023-13-45") DateOutputFormat.ISO {} 0 0).success = true ∧
    getSmartDate (DateInput.str "2023-13-45") {} 0 0 = none := by
  decide

/-- C1 amended: `getSmartDate` normalizes Date and numeric inputs exactly as
`formatDate` does, but normalizes a string input with the general-purpose
parse only, without the `YYYY-MM-DD` fallback of `formatDate`; on every
successfully normalized instant it renders, via `convertDate`, the
`relative` format when `now - instant` is at most 24 hours, the
abbreviated-month-with-time format when the instant's local calendar year
equals now's, and the full-date-and-time format otherwise. -/
theorem smart_vs_format_normalization :
    (∀ dobj opts tz, smartNormalize (DateInput.date dobj) opts tz =
      normalizeInput (DateInput.date dobj) opts tz) ∧
    (∀ n opts tz, smartNormalize (DateInput.num n) opts tz =
      normalizeInput (DateInput.num n) opts tz) ∧
    (∀ s opts tz, smartNormalize (DateInput.str s) opts tz = jsParseDate s tz) ∧
    (∀ input opts now tz e, smartNormalize input opts tz = some e →
      getSmartDate input opts now tz =
        convertDate (DateInput.date (some e))
          (if now - e ≤ 24 * (1000 * 60 * 60) then DateOutputFormat.relative
           else if jsGetFullYear now tz = jsGetFullYear e tz then DateOutputFormat.MMMDHHmm
           else DateOutputFormat.MMMDYYYYHHmm) opts now tz) := by
  refine ⟨fun _ _ _ => rfl, fun _ _ _ => rfl, fun _ _ _ => rfl, ?_⟩
  intro input opts now tz e h
  have hne : input ≠ DateInput.other := by
    intro hx
    subst hx
    simp [smartNormalize] at h
  rw [getSmartDate_eq input opts now tz hne, h]

theorem smart_vs_format_normalization_witness :
    smartNormalize (DateInput.num 0) {} 0 = some 0 ∧
    getSmartDate (DateInput.num 0) {} 0 0 =
      convertDate (DateInput.date (some 0))
        (if (0 : Int) - 0 ≤ 24 * (1000 * 60 * 60) then DateOutputFormat.relative
         else if jsGetFullYear 0 0 = jsGetFullYear 0 0 then DateOutputFormat.MMMDHHmm
         else DateOutputFormat.MMMDYYYYHHmm) {} 0 0 :=
  ⟨by decide, smart_vs_format_normalization.2.2.2 (DateInput.num 0) {} 0 0 0 (by decide)⟩

/-- C5 counterexample: the error message on a custom pattern the formatter
rejects is "Invalid custom format: <pattern>" with a capital I, not the
claimed form "invalid custom format: <pattern>". -/
theorem custom_format_message_cex :
    (formatDate (DateInput.str "2023-05-15") DateOutputFormat.custom
      { customFormat := some "J" } 0 0).error = some "Invalid custom format: J" ∧
    (formatDate (DateInput.str "2023-05-15") DateOutputFormat.custom
      { customFormat := some "J" } 0 0).error ≠
      some ("invalid custom format: " ++ "J") := by
  decide

/-- C5 amended: with the custom-pattern format, an absent (or empty, which
JS treats as falsy) `customFormat` option is a reported error, and a
pattern the collaborator's formatter rejects is reported as
"Invalid custom format: <pattern>" (capital I), carrying the offending
pattern string. -/
theorem custom_format_errors (input : DateInput) (opts : DateUtilOptions)
    (now tz e : Int) (he : normalizeInput input opts tz = some e)
    (hin : input ≠ DateInput.other) :
    ((opts.customFormat = none ∨ opts.customFormat = some "") →
      formatDate input DateOutputFormat.custom opts now tz =
        errResult "Custom format requires \x27customFormat\x27 option to be provided") ∧
    (∀ cf, opts.customFormat = some cf → cf ≠ "" → dfFormat e cf tz = none →
      formatDate input DateOutputFormat.custom opts now tz =
        errResult ("Invalid custom format: " ++ cf)) := by
  have hfd : formatDate input DateOutputFormat.custom opts now tz =
      renderFormat e DateOutputFormat.custom opts now tz := by
    rw [formatDate_eq input DateOutputFormat.custom opts now tz hin, he]
  rw [hfd]
  constructor
  · intro hcf
    rcases hcf with hnone | hempty
    · unfold renderFormat
      rw [hnone]
    · unfold renderFormat
      rw [hempty]
      simp
  · intro cf hcf hne hdf
    unfold renderFormat
    rw [hcf]
    simp only [if_neg hne]
    rw [hdf]

theorem custom_format_errors_witness :
    formatDate (DateInput.str "2023-05-15") DateOutputFormat.custom {} 0 0 =
      errResult "Custom format requires \x27customFormat\x27 option to be provided" ∧
    formatDate (DateInput.str "2023-05-15") DateOutputFormat.custom
      { customFormat := some "J" } 0 0 = errResult ("Invalid custom format: " ++ "J") :=
  ⟨(custom_format_errors (DateInput.str "2023-05-15") {} 0 0 1684108800000 (by decide)
      (by decide)).1 (Or.inl rfl),
   (custom_format_errors (DateInput.str "2023-05-15") { customFormat := some "J" } 0 0
      1684108800000 (by decide) (by decide)).2 "J" rfl (by decide) (by decide)⟩

/-! ### Round-trip of canonical ISO strings (C7) -/

lemma dVal_digitChar (n : Int) (h1 : 0 ≤ n) (h2 : n ≤ 9) :
    dVal (digitChar n) = some n := by
  interval_cases n <;> decide

lemma parse2_digits (n : Int) (h1 : 0 ≤ n) (h2 : n ≤ 99) :
    parse2 (digitChar (n / 10 % 10)) (digitChar (n % 10)) = some n := by
  have e1 := dVal_digitChar (n / 10 % 10) (by omega) (by omega)
  have e2 := dVal_digitChar (n % 10) (by omega) (by omega)
  simp only [parse2, e1, e2, Option.some.injEq]
  omega

lemma parse3_digits (n : Int) (h1 : 0 ≤ n) (h2 : n ≤ 999) :
    parse3 (digitChar (n / 100 % 10)) (digitChar (n / 10 % 10)) (digitChar (n % 10)) =
      some n := by
  have e1 := dVal_digitChar (n / 100 % 10) (by omega) (by omega)
  have e2 := dVal_digitChar (n / 10 % 10) (by omega) (by omega)
  have e3 := dVal_digitChar (n % 10) (by omega) (by omega)
  simp only [parse3, e1, e2, e3, Option.some.injEq]
  omega

lemma parse4_digits (n : Int) (h1 : 0 ≤ n) (h2 : n ≤ 9999) :
    parse4 (digitChar (n / 1000 % 10)) (digitChar (n / 100 % 10))
      (digitChar (n / 10 % 10)) (digitChar (n % 10)) = some n := by
  have e1 := dVal_digitChar (n / 1000 % 10) (by omega) (by omega)
  have e2 := dVal_digitChar (n / 100 % 10) (by omega) (by omega)
  have e3 := dVal_digitChar (n / 10 % 10) (by omega) (by omega)
  have e4 := dVal_digitChar (n % 10) (by omega) (by omega)
  simp only [parse4, e1, e2, e3, e4, Option.some.injEq]
  omega

lemma daysFromCivil_bounds (y mo d : Int) (hy1 : 0 ≤ y) (hy2 : y ≤ 9999)
    (_hm1 : 1 ≤ mo) (_hm2 : mo ≤ 12) (hd1 : 1 ≤ d) (hd2 : d ≤ 31) :
    -1000000 < daysFromCivil y mo d ∧ daysFromCivil y mo d < 3000000 := by
  obtain ⟨Y, hY⟩ : ∃ t, t = y - (if mo ≤ 2 then 1 else 0) := ⟨_, rfl⟩
  obtain ⟨ERA, hERA⟩ : ∃ t, t = Y / 400 := ⟨_, rfl⟩
  obtain ⟨YOE, hYOE⟩ : ∃ t, t = Y - ERA * 400 := ⟨_, rfl⟩
  obtain ⟨MP, hMP⟩ : ∃ t, t = (mo + 9) % 12 := ⟨_, rfl⟩
  obtain ⟨DOY, hDOY⟩ : ∃ t, t = (153 * MP + 2) / 5 + d - 1 := ⟨_, rfl⟩
  obtain ⟨DOE, hDOE⟩ : ∃ t, t = YOE * 365 + YOE / 4 - YOE / 100 + DOY := ⟨_, rfl⟩
  rw [daysFromCivil_char y mo d Y ERA YOE MP DOY DOE hY hERA hYOE hMP hDOY hDOE]
  omega

lemma isoString_data (y mo d h mi s ms : Int) :
    (isoString y mo d h mi s ms).data =
      [digitChar (y / 1000 % 10), digitChar (y / 100 % 10), digitChar (y / 10 % 10),
       digitChar (y % 10), '-', digitChar (mo / 10 % 10), digitChar (mo % 10),
       '-', digitChar (d / 10 % 10), digitChar (d % 10),
       'T', digitChar (h / 10 % 10), digitChar (h % 10),
       ':', digitChar (mi / 10 % 10), digitChar (mi % 10),
       ':', digitChar (s / 10 % 10), digitChar (s % 10),
       '.', digitChar (ms / 100 % 10), digitChar (ms / 10 % 10), digitChar (ms % 10),
       'Z'] := by
  simp only [isoString, pad2, pad3, pad4, String.data_append]
  rfl

lemma jsParseDate_isoString (y mo d h mi s ms tz : Int)
    (hy1 : 0 ≤ y) (hy2 : y ≤ 9999) (hm1 : 1 ≤ mo) (hm2 : mo ≤ 12)
    (hd1 : 1 ≤ d) (hd2 : d ≤ daysInMonth y mo)
    (hh1 : 0 ≤ h) (hh2 : h ≤ 23) (hmi1 : 0 ≤ mi) (hmi2 : mi ≤ 59)
    (hs1 : 0 ≤ s) (hs2 : s ≤ 59) (hms1 : 0 ≤ ms) (hms2 : ms ≤ 999) :
    jsParseDate (isoString y mo d h mi s ms) tz =
      some (utcEpochMs y mo d h mi s ms) := by
  have hdim : d ≤ 31 := by
    have : daysInMonth y mo ≤ 31 := by
      unfold daysInMonth
      split
      · split <;> omega
      · split <;> omega
    omega
  have hbounds := daysFromCivil_bounds y mo d hy1 hy2 hm1 hm2 hd1 hdim
  have hp4 := parse4_digits y hy1 hy2
  have hp2mo := parse2_digits mo (by omega) (by omega)
  have hp2d := parse2_digits d (by omega) (by omega)
  have hp2h := parse2_digits h (by omega) (by omega)
  have hp2mi := parse2_digits mi (by omega) (by omega)
  have hp2s := parse2_digits s (by omega) (by omega)
  have hp3ms := parse3_digits ms (by omega) (by omega)
  simp only [jsParseDate, isoString_data, parseDatePart, hp4, hp2mo, hp2d]
  rw [if_pos ⟨hm1, hm2, hd1, hd2⟩]
  simp only [parseTimePart, hp2h, hp2mi]
  rw [if_pos ⟨hh2, hmi2⟩]
  simp only [parseSecondsPart, hp2s]
  rw [if_pos hs2]
  simp only [hp3ms, parseTZDesignator, timeClip]
  rw [if_pos (by omega)]
  simp only [Option.some.injEq, utcEpochMs]
  ring

lemma toISOString_utcEpochMs (y mo d h mi s ms : Int)
    (hy1 : 0 ≤ y) (hy2 : y ≤ 9999) (hm1 : 1 ≤ mo) (hm2 : mo ≤ 12)
    (hd1 : 1 ≤ d) (hd2 : d ≤ daysInMonth y mo)
    (hh1 : 0 ≤ h) (hh2 : h ≤ 23) (hmi1 : 0 ≤ mi) (hmi2 : mi ≤ 59)
    (hs1 : 0 ≤ s) (hs2 : s ≤ 59) (hms1 : 0 ≤ ms) (hms2 : ms ≤ 999) :
    toISOString (utcEpochMs y mo d h mi s ms) = isoString y mo d h mi s ms := by
  obtain ⟨E, hE⟩ : ∃ t, t = utcEpochMs y mo d h mi s ms := ⟨_, rfl⟩
  rw [← hE]
  unfold utcEpochMs at hE
  have h1 : E / 86400000 = daysFromCivil y mo d := by omega
  have h2 : E % 86400000 = h * 3600000 + mi * 60000 + s * 1000 + ms := by omega
  simp only [toISOString, h1, h2,
    civilFromDays_daysFromCivil y mo d hm1 hm2 hd1 hd2]
  have h3 : (h * 3600000 + mi * 60000 + s * 1000 + ms) / 3600000 = h := by omega
  have h4 : (h * 3600000 + mi * 60000 + s * 1000 + ms) % 3600000 / 60000 = mi := by omega
  have h5 : (h * 3600000 + mi * 60000 + s * 1000 + ms) % 60000 / 1000 = s := by omega
  have h6 : (h * 3600000 + mi * 60000 + s * 1000 + ms) % 1000 = ms := by omega
  rw [h3, h4, h5, h6, if_pos ⟨hy1, hy2⟩]
  rfl

/-- C7: a canonical ISO-8601 string with millisecond precision and the UTC
designator round-trips through `formatDate` with the ISO output format:
the result is a success whose value is the input string itself (and whose
date is the corresponding UTC instant). -/
theorem iso_roundtrip (y mo d h mi s ms : Int) (opts : DateUtilOptions) (now tz : Int)
    (hy1 : 0 ≤ y) (hy2 : y ≤ 9999) (hm1 : 1 ≤ mo) (hm2 : mo ≤ 12)
    (hd1 : 1 ≤ d) (hd2 : d ≤ daysInMonth y mo)
    (hh1 : 0 ≤ h) (hh2 : h ≤ 23) (hmi1 : 0 ≤ mi) (hmi2 : mi ≤ 59)
    (hs1 : 0 ≤ s) (hs2 : s ≤ 59) (hms1 : 0 ≤ ms) (hms2 : ms ≤ 999) :
    formatDate (DateInput.str (isoString y mo d h mi s ms)) DateOutputFormat.ISO
      opts now tz =
      okResult (JSValue.str (isoString y mo d h mi s ms)) (utcEpochMs y mo d h mi s ms) := by
  have hparse := jsParseDate_isoString y mo d h mi s ms tz hy1 hy2 hm1 hm2 hd1 hd2
    hh1 hh2 hmi1 hmi2 hs1 hs2 hms1 hms2
  have hnorm : normalizeInput (DateInput.str (isoString y mo d h mi s ms)) opts tz =
      some (utcEpochMs y mo d h mi s ms) := by
    simp only [normalizeInput, hparse]
  rw [formatDate_eq _ _ _ _ _ (by simp), hnorm]
  show renderFormat _ _ _ _ _ = _
  simp only [renderFormat, okResult,
    toISOString_utcEpochMs y mo d h mi s ms hy1 hy2 hm1 hm2 hd1 hd2
      hh1 hh2 hmi1 hmi2 hs1 hs2 hms1 hms2]

theorem iso_roundtrip_witness :
    formatDate (DateInput.str "2023-05-15T14:30:00.000Z") DateOutputFormat.ISO {} 0 0 =
      okResult (JSValue.str "2023-05-15T14:30:00.000Z") 1684161000000 := by
  have h := iso_roundtrip 2023 5 15 14 30 0 0 {} 0 0 (by decide) (by decide) (by decide)
    (by decide) (by decide) (by decide) (by decide) (by decide) (by decide) (by decide)
    (by decide) (by decide) (by decide) (by decide)
  have hs : isoString 2023 5 15 14 30 0 0 = "2023-05-15T14:30:00.000Z" := by decide
  have he : utcEpochMs 2023 5 15 14 30 0 0 = 1684161000000 := by decide
  rw [hs, he] at h
  exact h

/-- C3: string normalization of `formatDate`: when the general-purpose parse
yields an invalid instant and the string matches the strict
`\d{4}-\d{2}-\d{2}` pattern, the instant is constructed from the three
split components as local year/month/day with the month decremented by one;
otherwise the result of the general-purpose parse is used (an invalid parse
with no pattern match fails as an invalid date). -/
theorem string_normalization (s : String) (opts : DateUtilOptions) (now tz : Int) :
    (∀ y mo dd, jsParseDate s tz = none → splitYMD s = some (y, mo, dd) →
      (formatDate (DateInput.str s) DateOutputFormat.ISO opts now tz).date =
        jsNewDateYMD y (mo - 1) dd tz) ∧
    (∀ t, jsParseDate s tz = some t →
      (formatDate (DateInput.str s) DateOutputFormat.ISO opts now tz).date = some t) ∧
    (jsParseDate s tz = none → splitYMD s = none →
      formatDate (DateInput.str s) DateOutputFormat.ISO opts now tz =
        errResult "Invalid date.") := by
  refine ⟨?_, ?_, ?_⟩
  · intro y mo dd hp hs
    have hnorm : normalizeInput (DateInput.str s) opts tz =
        jsNewDateYMD y (mo - 1) dd tz := by
      simp only [normalizeInput, hp, hs]
    rw [formatDate_eq _ _ _ _ _ (by simp), hnorm]
    rcases jsNewDateYMD y (mo - 1) dd tz with _ | e
    · rfl
    · rfl
  · intro t hp
    have hnorm : normalizeInput (DateInput.str s) opts tz = some t := by
      simp only [normalizeInput, hp]
    rw [formatDate_eq _ _ _ _ _ (by simp), hnorm]
    rfl
  · intro hp hs
    have hnorm : normalizeInput (DateInput.str s) opts tz = none := by
      simp only [normalizeInput, hp, hs]
    rw [formatDate_eq _ _ _ _ _ (by simp), hnorm]

theorem string_normalization_witness :
    jsParseDate "2023-13-45" 0 = none ∧
    splitYMD "2023-13-45" = some (2023, 13, 45) ∧
    (formatDate (DateInput.str "2023-13-45") DateOutputFormat.ISO {} 0 0).date =
      jsNewDateYMD 2023 12 45 0 := by
  refine ⟨by decide, by decide, ?_⟩
  have h := (string_normalization "2023-13-45" {} 0 0).1 2023 13 45 (by decide) (by decide)
  simpa using h

/-- C8: formatDate of the numeric timestamp 1684150200 with explicit seconds
unit and the plain-date format renders "2023-05-15"; the instant is
2023-05-15T11:30Z, so the rendered local date is 2023-05-15 for any host
offset in the stated range around UTC (witnessed at UTC itself). -/
theorem seconds_timestamp_example (now tz : Int)
    (h1 : -41400000 ≤ tz) (h2 : tz < 45000000) :
    (formatDate (DateInput.num 1684150200) DateOutputFormat.YYYYMMDD
      { timestampUnit := some TimestampUnit.seconds } now tz).value =
      some (JSValue.str "2023-05-15") := by
  have hnorm : normalizeInput (DateInput.num 1684150200)
      { timestampUnit := some TimestampUnit.seconds } tz = some 1684150200000 := rfl
  have hday : (1684150200000 + tz) / 86400000 = 19492 := by omega
  have hciv : civilFromDays ((1684150200000 + tz) / 86400000) = (2023, 5, 15) := by
    rw [hday]
    decide
  have hdf : dfFormat 1684150200000 "yyyy-MM-dd" tz = some "2023-05-15" := by
    simp only [dfFormat]
    rw [hciv]
    rfl
  rw [formatDate_eq _ _ _ _ _ (by decide), hnorm]
  show (renderPattern 1684150200000 "yyyy-MM-dd" tz).value =
    some (JSValue.str "2023-05-15")
  unfold renderPattern
  rw [hdf]
  rfl

theorem seconds_timestamp_example_witness :
    -41400000 ≤ (0 : Int) ∧ (0 : Int) < 45000000 ∧
    (formatDate (DateInput.num 1684150200) DateOutputFormat.YYYYMMDD
      { timestampUnit := some TimestampUnit.seconds } 0 0).value =
      some (JSValue.str "2023-05-15") :=
  ⟨by decide, by decide, seconds_timestamp_example 0 0 (by decide) (by decide)⟩

end DateFormatUtil
